import Mathlib

/-!
Verification development for the mailSystemPy service (src/main.py).

The definitions below are a shallow embedding of the access-control and
mail-relay logic of the source file: the API-key check (verify_api_key),
the IP allowlist matcher (verify_ip_address), client IP resolution
(get_client_ip), the combined gate (verify_access), the documentation
middleware (DocsAccessMiddleware.dispatch), attachment decoding
(decode_base64_attachment), the mail relay (send_email) and the
send-email endpoint dispatch.  Environment-derived configuration (the
API key and the allowlist) is modelled as an explicit immutable record
passed to the functions, matching the load-once semantics of the source.
Machine-level collaborators (the ipaddress module and base64.b64decode)
are embedded by translating their CPython algorithms to total functions
returning Option, where returning none models a raised exception.
-/

namespace MailSys

/-- Python truthiness of an optional string: None and the empty string are
falsy, every other string is truthy. -/
def pyTruthy : Option String → Bool
  | none => false
  | some s => !(s == "")

/-- Whitespace test covering the characters stripped by str.strip on
the inputs of interest (the ASCII whitespace characters). -/
def isSpaceChar (c : Char) : Bool :=
  c = ' ' || c = '\t' || c = '\n' || c = '\r' || c.toNat == 11 || c.toNat == 12

/-- Model of str.strip with no argument: drop whitespace from both
ends. -/
def pyStrip (s : String) : String :=
  String.mk (((s.data.dropWhile isSpaceChar).reverse.dropWhile isSpaceChar).reverse)

/-- Auxiliary for pySplit: walk the characters, cutting at the
separator. -/
def pySplitAux (sep : Char) : List Char → List Char → List String
  | [], acc => [String.mk acc.reverse]
  | c :: rest, acc =>
    if c = sep then String.mk acc.reverse :: pySplitAux sep rest []
    else pySplitAux sep rest (c :: acc)

/-- Model of str.split on a one-character separator: the empty string
yields one empty piece, and separators at the ends yield empty
pieces. -/
def pySplit (sep : Char) (s : String) : List String := pySplitAux sep s.data []

/-- Membership of a character in a string (the Python in operator on a
one-character needle). -/
def strHasChar (s : String) (c : Char) : Bool := s.data.contains c

/-- Model of str.startswith. -/
def strStarts (s pre : String) : Bool := List.isPrefixOf pre.data s.data

/-! ### Model of base64.b64decode (validate=False)

CPython b64decode first encodes the str argument as ASCII (failing on any
non-ASCII character) and then runs binascii.a2b_base64 in non-strict
mode: characters outside the base64 alphabet are skipped, a pad sign that
completes a quad ends decoding, and leftover data characters at the end
raise an error.  A raised exception is modelled as none. -/

/-- Value of a character in the standard base64 alphabet, none for a
character outside the alphabet. -/
def b64val (c : Char) : Option Nat :=
  if 65 ≤ c.toNat ∧ c.toNat ≤ 90 then some (c.toNat - 65)
  else if 97 ≤ c.toNat ∧ c.toNat ≤ 122 then some (c.toNat - 71)
  else if 48 ≤ c.toNat ∧ c.toNat ≤ 57 then some (c.toNat + 4)
  else if c = '+' then some 62
  else if c = '/' then some 63
  else none

/-- Model of binascii.a2b_base64 in non-strict mode.  The state is the
position in the current quad, the leftover bits from the previous
character, the number of pad signs seen in the current quad, and the
bytes produced so far (in reverse). -/
def a2b_base64 : List Char → Nat → Nat → Nat → List Nat → Option (List Nat)
  | [], quadPos, _, _, acc =>
      if quadPos == 0 then some acc.reverse else none
  | c :: rest, quadPos, left, pads, acc =>
      if c = '=' then
        if quadPos ≥ 2 then
          if quadPos + (pads + 1) ≥ 4 then some acc.reverse
          else a2b_base64 rest quadPos left (pads + 1) acc
        else a2b_base64 rest quadPos left pads acc
      else
        match b64val c with
        | none => a2b_base64 rest quadPos left pads acc
        | some v =>
          match quadPos with
          | 0 => a2b_base64 rest 1 v 0 acc
          | 1 => a2b_base64 rest 2 (v % 16) 0 ((left * 4 + v / 16) :: acc)
          | 2 => a2b_base64 rest 3 (v % 4) 0 ((left * 16 + v / 4) :: acc)
          | _ => a2b_base64 rest 0 0 0 ((left * 64 + v) :: acc)

/-- Model of base64.b64decode on a str argument; the result bytes are
modelled as a list of Nat. -/
def b64decode (s : String) : Option (List Nat) :=
  if s.data.all (fun c => c.toNat < 128) then a2b_base64 s.data 0 0 0 []
  else none

/-! ### Model of the ipaddress module

Only the parts reached from verify_ip_address are embedded:
ip_address (IPv4 first, then IPv6) and ip_network with strict=False,
together with network membership.  Parsing follows the CPython
algorithms (_parse_octet, _ip_int_from_string, _parse_hextet,
_make_netmask, _split_scope_id); an exception is modelled as none. -/

/-- Decimal value of a list of decimal digit characters. -/
def digitsVal (cs : List Char) : Nat :=
  cs.foldl (fun a c => a * 10 + (c.toNat - 48)) 0

/-- Model of IPv4Address._parse_octet: decimal digits only, at most three
characters, no leading zero, value at most 255. -/
def parseOctet (s : String) : Option Nat :=
  let cs := s.data
  if cs.isEmpty then none
  else if !(cs.all Char.isDigit) then none
  else if cs.length > 3 then none
  else if s ≠ "0" ∧ cs.headD '1' = '0' then none
  else if digitsVal cs > 255 then none
  else some (digitsVal cs)

/-- Model of IPv4Address parsing: exactly four dot-separated octets. -/
def parseIPv4 (s : String) : Option Nat :=
  match pySplit '.' s with
  | [a, b, c, d] =>
    match parseOctet a, parseOctet b, parseOctet c, parseOctet d with
    | some x, some y, some z, some w => some (((x * 256 + y) * 256 + z) * 256 + w)
    | _, _, _, _ => none
  | _ => none

/-- Hexadecimal digit test (both cases), as in the _HEX_DIGITS set. -/
def isHexChar (c : Char) : Bool :=
  c.isDigit || (97 ≤ c.toNat && c.toNat ≤ 102) || (65 ≤ c.toNat && c.toNat ≤ 70)

/-- Hexadecimal value of a list of hex digit characters. -/
def hexVal (cs : List Char) : Nat :=
  cs.foldl (fun a c =>
    a * 16 + (if c.isDigit then c.toNat - 48
              else if 97 ≤ c.toNat then c.toNat - 87 else c.toNat - 55)) 0

/-- Model of IPv6Address._parse_hextet: one to four hex digits. -/
def parseHextet (s : String) : Option Nat :=
  let cs := s.data
  if cs.isEmpty then none
  else if !(cs.all isHexChar) then none
  else if cs.length > 4 then none
  else some (hexVal cs)

/-- Lowercase hex digit character for a value below 16. -/
def hexDigitChar (n : Nat) : Char :=
  if n < 10 then Char.ofNat (48 + n) else Char.ofNat (87 + n)

/-- Lowercase hexadecimal rendering, without leading zeros, of a 16-bit
value; used for the embedded-IPv4 tail of an IPv6 address. -/
def hexStr16 (n : Nat) : String :=
  let ds := [hexDigitChar (n / 4096 % 16), hexDigitChar (n / 256 % 16),
             hexDigitChar (n / 16 % 16), hexDigitChar (n % 16)]
  let t := ds.dropWhile (fun c => c = '0')
  if t.isEmpty then "0" else String.mk t

/-- Fold a list of hextet strings into a single integer, 16 bits per
hextet; none if any hextet fails to parse. -/
def foldHextets (ps : List String) : Option Nat :=
  ps.foldl (fun acc p =>
    match acc, parseHextet p with
    | some a, some v => some (a * 65536 + v)
    | _, _ => none) (some 0)

/-- Model of IPv6Address._ip_int_from_string: split on colons, expand an
embedded IPv4 tail, locate at most one internal empty part (the double
colon), check the leading and trailing empty parts, and assemble the
128-bit value. -/
def parseIPv6NoScope (s : String) : Option Nat :=
  if s.isEmpty then none else
  let parts0 := pySplit ':' s
  if parts0.length < 3 then none else
  let expanded : Option (List String) :=
    if strHasChar (parts0.getLastD "") '.' then
      match parseIPv4 (parts0.getLastD "") with
      | some v => some (parts0.dropLast ++ [hexStr16 (v / 65536), hexStr16 (v % 65536)])
      | none => none
    else some parts0
  match expanded with
  | none => none
  | some parts =>
    let n := parts.length
    if n > 9 then none else
    let internalEmpties := (List.range n).filter
      (fun i => i != 0 && i != n - 1 && (parts.getD i "x") == "")
    match internalEmpties with
    | [] =>
      if n != 8 then none
      else if (parts.getD 0 "x") == "" || (parts.getD (n - 1) "x") == "" then none
      else foldHextets parts
    | [i] =>
      let headEmpty := (parts.getD 0 "x") == ""
      let lastEmpty := (parts.getD (n - 1) "x") == ""
      if headEmpty && i != 1 then none
      else if lastEmpty && i != n - 2 then none
      else
        let hi := if headEmpty then i - 1 else i
        let lo := if lastEmpty then n - i - 2 else n - i - 1
        if hi + lo > 7 then none
        else
          match foldHextets (parts.take hi), foldHextets (parts.drop (n - lo)) with
          | some hv, some lv => some (hv * 2 ^ (16 * ((8 - (hi + lo)) + lo)) + lv)
          | _, _ => none
    | _ => none

/-- Model of IPv6Address parsing including _split_scope_id: an optional
percent-separated nonempty scope suffix is accepted and ignored. -/
def parseIPv6 (s : String) : Option Nat :=
  match pySplit '%' s with
  | [a] => parseIPv6NoScope a
  | [a, scope] => if scope.isEmpty then none else parseIPv6NoScope a
  | _ => none

/-- An IP address value: IPv4 or IPv6 with its integer form. -/
inductive IPAddr where
  | v4 (val : Nat)
  | v6 (val : Nat)
deriving DecidableEq

/-- Model of ipaddress.ip_address: try IPv4, then IPv6, else error. -/
def ip_address (s : String) : Option IPAddr :=
  match parseIPv4 s with
  | some v => some (IPAddr.v4 v)
  | none =>
    match parseIPv6 s with
    | some v => some (IPAddr.v6 v)
    | none => none

/-- Netmask integer with the top p bits set out of the given width. -/
def maskOf (bits p : Nat) : Nat := (2 ^ bits - 1) - (2 ^ (bits - p) - 1)

/-- Model of _prefix_from_prefix_string: decimal digits only, value at
most the maximum prefix length. -/
def parseCIDRLen (maxLen : Nat) (s : String) : Option Nat :=
  let cs := s.data
  if cs.isEmpty then none
  else if !(cs.all Char.isDigit) then none
  else if digitsVal cs ≤ maxLen then some (digitsVal cs) else none

/-- Prefix length of an IPv4 netmask integer, if it is one. -/
def v4PrefixOfMaskInt (m : Nat) : Option Nat :=
  (List.range 33).find? (fun p => m == maskOf 32 p)

/-- Model of IPv4Network._make_netmask on a string: a prefix length,
else a dotted netmask, else a dotted hostmask. -/
def v4Netmask (s : String) : Option Nat :=
  match parseCIDRLen 32 s with
  | some p => some p
  | none =>
    match parseIPv4 s with
    | none => none
    | some m =>
      match v4PrefixOfMaskInt m with
      | some p => some p
      | none => v4PrefixOfMaskInt ((2 ^ 32 - 1) - m)

/-- Prefix length of an IPv6 netmask integer, if it is one. -/
def v6PrefixOfMaskInt (m : Nat) : Option Nat :=
  (List.range 129).find? (fun p => m == maskOf 128 p)

/-- Model of IPv6Network._make_netmask on a string: a prefix length,
else an IPv6-formatted netmask (no hostmask form for IPv6). -/
def v6Netmask (s : String) : Option Nat :=
  match parseCIDRLen 128 s with
  | some p => some p
  | none =>
    match parseIPv6NoScope s with
    | none => none
    | some m => v6PrefixOfMaskInt m

/-- A parsed network: version flag, masked network integer, netmask. -/
structure IPNetwork where
  isV4 : Bool
  netAddr : Nat
  mask : Nat
deriving DecidableEq

/-- Model of IPv4Network(s, strict=False): the host bits of the given
address are masked away rather than rejected. -/
def ipv4Network (s : String) : Option IPNetwork :=
  match pySplit '/' s with
  | [a] =>
    match parseIPv4 a with
    | some ip => some ⟨true, ip, maskOf 32 32⟩
    | none => none
  | [a, m] =>
    match parseIPv4 a, v4Netmask m with
    | some ip, some p => some ⟨true, ip &&& maskOf 32 p, maskOf 32 p⟩
    | _, _ => none
  | _ => none

/-- Model of IPv6Network(s, strict=False). -/
def ipv6Network (s : String) : Option IPNetwork :=
  match pySplit '/' s with
  | [a] =>
    match parseIPv6 a with
    | some ip => some ⟨false, ip, maskOf 128 128⟩
    | none => none
  | [a, m] =>
    match parseIPv6 a, v6Netmask m with
    | some ip, some p => some ⟨false, ip &&& maskOf 128 p, maskOf 128 p⟩
    | _, _ => none
  | _ => none

/-- Model of ipaddress.ip_network(s, strict=False): IPv4 first, then
IPv6, else error. -/
def ip_network (s : String) : Option IPNetwork :=
  match ipv4Network s with
  | some n => some n
  | none => ipv6Network s

/-- Model of membership of an address in a network (\_BaseNetwork
membership): false across versions, otherwise the address masked by the
netmask must equal the network address. -/
def memNetwork (a : IPAddr) (net : IPNetwork) : Bool :=
  match a with
  | .v4 v => net.isV4 && ((v &&& net.mask) == net.netAddr)
  | .v6 v => (!net.isV4) && ((v &&& net.mask) == net.netAddr)

/-! ### Configuration and request model

The source reads ALLOWED_IPS and API_KEY from the environment once per
call; following the load-once semantics described in the spec they are
modelled as an immutable configuration record.  A request carries the
designated headers and the transport-level peer address. -/

/-- Immutable security configuration: the expected API key (None when
the API_KEY variable is unset; the empty string behaves like unset under
Python truthiness) and the parsed allowlist. -/
structure AppConfig where
  apiKey : Option String
  allowedIps : List String
deriving DecidableEq

/-- Model of get_allowed_ips applied to the raw ALLOWED_IPS string:
split on commas, strip whitespace, drop empty items. -/
def get_allowed_ips (env : String) : List String :=
  ((pySplit ',' env).map pyStrip).filter (fun s => !s.isEmpty)

/-- An inbound request: URL path, the X-API-Key, X-Real-IP and
X-Forwarded-For headers (none when absent), and the transport-level peer
address (none when request.client is None). -/
structure Request where
  path : String
  xApiKey : Option String
  xRealIP : Option String
  xForwardedFor : Option String
  clientHost : Option String
deriving DecidableEq

/-- Authorization failures raised by the gate (HTTPException in the
source): 401 with a WWW-Authenticate challenge, or 403. -/
inductive AuthError where
  | unauthenticated (detail : String)
  | forbidden (detail : String)
deriving DecidableEq

deriving instance DecidableEq for Except

/-- HTTP status code of an authorization failure. -/
def authStatus : AuthError → Nat
  | .unauthenticated _ => 401
  | .forbidden _ => 403

/-- Detail string of an authorization failure. -/
def authDetail : AuthError → String
  | .unauthenticated d => d
  | .forbidden d => d

/-! ### The IP matcher (verify_ip_address) -/

/-- Localhost normalization performed by verify_ip_address before the
allowlist loop: 127.0.0.1, the IPv6 loopback and the literal localhost
all become 127.0.0.1. -/
def normalizeLocal (client_ip : String) : String :=
  if client_ip = "127.0.0.1" ∨ client_ip = "::1" ∨ client_ip = "localhost"
  then "127.0.0.1" else client_ip

/-- Body of the allowlist loop of verify_ip_address, for one entry and
the already-normalized client IP: a slash selects CIDR matching (any
parse failure is caught and the entry is skipped, that is, does not
match), otherwise plain string equality. -/
def entry_match (client_ip entry : String) : Bool :=
  if strHasChar entry '/' then
    match ip_address client_ip, ip_network entry with
    | some a, some net => memNetwork a net
    | _, _ => false
  else client_ip == entry

/-- Model of verify_ip_address: an empty allowlist allows everything
(development mode); otherwise the client IP is normalized and matched
against each entry in turn, returning true on the first match. -/
def verify_ip_address (allowed_ips : List String) (client_ip : String) : Bool :=
  if allowed_ips.isEmpty then true
  else allowed_ips.any (entry_match (normalizeLocal client_ip))

/-! ### The API-key check (verify_api_key) -/

/-- Model of verify_api_key: with no configured key authentication is
disabled; a missing (or empty, hence falsy) presented key is rejected
with 401; a mismatched key is rejected with 401; otherwise the key is
returned. -/
def verify_api_key (expected_api_key api_key : Option String) :
    Except AuthError String :=
  if !pyTruthy expected_api_key then .ok "no-key-required"
  else if !pyTruthy api_key then
    .error (.unauthenticated
      "API Key requerida. Proporciona la API Key en el header X-API-Key")
  else if api_key != expected_api_key then
    .error (.unauthenticated "API Key inválida")
  else .ok (api_key.getD "")

/-! ### Client IP resolution (get_client_ip) -/

/-- Model of get_client_ip: start from the transport-level peer address
(or the literal unknown), overwrite it with the trimmed first
comma-separated element of X-Forwarded-For when that header is truthy,
then overwrite with the trimmed X-Real-IP when that header is truthy. -/
def get_client_ip (r : Request) : String :=
  let client_ip := match r.clientHost with | some h => h | none => "unknown"
  let client_ip :=
    if pyTruthy r.xForwardedFor then
      pyStrip ((pySplit ',' (r.xForwardedFor.getD "")).headD "")
    else client_ip
  let client_ip :=
    if pyTruthy r.xRealIP then pyStrip (r.xRealIP.getD "")
    else client_ip
  client_ip

/-! ### The access gate (verify_access) -/

/-- The inline private-network test of verify_access: the resolved
client string begins with 172., 192.168. or 10. as a plain string
test. -/
def docker_net_test (client_ip : String) : Bool :=
  strStarts client_ip "172." || strStarts client_ip "192.168." ||
    strStarts client_ip "10."

/-- Model of verify_access: the verify_api_key dependency runs first and
its failure propagates untouched; then the client IP is resolved by the
same three steps as get_client_ip; if 127.0.0.1 is an allowlist entry
and the client string has a private-network prefix the request is
granted immediately; otherwise verify_ip_address decides, with a 403
carrying the rejected IP on failure. -/
def verify_access (cfg : AppConfig) (r : Request) : Except AuthError String :=
  match verify_api_key cfg.apiKey r.xApiKey with
  | .error e => .error e
  | .ok api_key =>
    let client_ip := match r.clientHost with | some h => h | none => "unknown"
    let client_ip :=
      if pyTruthy r.xForwardedFor then
        pyStrip ((pySplit ',' (r.xForwardedFor.getD "")).headD "")
      else client_ip
    let client_ip :=
      if pyTruthy r.xRealIP then pyStrip (r.xRealIP.getD "")
      else client_ip
    if cfg.allowedIps.contains "127.0.0.1" && docker_net_test client_ip then
      .ok api_key
    else if !verify_ip_address cfg.allowedIps client_ip then
      .error (.forbidden
        ("Acceso denegado. Tu IP (" ++ client_ip ++
          ") no está en la lista de IPs permitidas."))
    else .ok api_key

/-- True when the gate returned ok. -/
def gateOk : Except AuthError String → Bool
  | .ok _ => true
  | .error _ => false

/-! ### The documentation middleware (DocsAccessMiddleware.dispatch) -/

/-- Outcome of the documentation middleware for one request: pass the
request through to the application, or reject it with a 403 body. -/
inductive DocsDecision where
  | allow
  | deny (detail : String)
deriving DecidableEq

/-- The protected documentation paths. -/
def docs_paths : List String := ["/docs", "/redoc", "/openapi.json"]

/-- True when the request path starts with a protected path. -/
def is_docs_path (p : String) : Bool := docs_paths.any (fun d => strStarts p d)

/-- Model of DocsAccessMiddleware.dispatch: requests outside the
documentation paths pass through; an empty allowlist passes everything;
when 127.0.0.1 is an allowlist entry, a local client string or a
private-network prefix is allowed directly; otherwise verify_ip_address
decides. -/
def docs_dispatch (allowed_ips : List String) (r : Request) : DocsDecision :=
  if !is_docs_path r.path then .allow
  else
    let client_ip := get_client_ip r
    if allowed_ips.isEmpty then .allow
    else
      let ip_allowed :=
        allowed_ips.contains "127.0.0.1" &&
          (client_ip == "127.0.0.1" || client_ip == "::1" ||
            client_ip == "localhost" || docker_net_test client_ip)
      let ip_allowed :=
        if !ip_allowed then verify_ip_address allowed_ips client_ip
        else ip_allowed
      if !ip_allowed then
        .deny ("Acceso denegado. Tu IP (" ++ client_ip ++
          ") no está autorizada para acceder a la documentación.")
      else .allow

/-! ### Request schema (pydantic models Attachment and EmailRequest) -/

/-- Model of the Attachment schema: filename, base64 content, optional
MIME type. -/
structure Attachment where
  filename : String
  content : String
  content_type : Option String
deriving DecidableEq

/-- Simplified model of the EmailStr syntactic check performed by the
pydantic email-validator: one at sign separating a nonempty local part
from a nonempty dotted domain.  No claim in this development depends on
the exact acceptance set of this collaborator. -/
def isValidEmail (s : String) : Bool :=
  match pySplit '@' s with
  | [l, d] => !l.isEmpty && !d.isEmpty && strHasChar d '.'
  | _ => false

/-- Model of the EmailRequest body after JSON parsing. -/
structure EmailReq where
  subject : String
  body : String
  recipients : List String
  attachments : Option (List Attachment)
  is_html : Bool
deriving DecidableEq

/-- Model of the pydantic validation of EmailRequest: subject between 1
and 500 characters, nonempty body, at least one recipient (the
min_items constraint and the custom validator coincide), each recipient
a syntactically valid email address. -/
def validate_email_request (e : EmailReq) : Bool :=
  1 ≤ e.subject.length && e.subject.length ≤ 500 &&
    1 ≤ e.body.length &&
    1 ≤ e.recipients.length && e.recipients.all isValidEmail

/-! ### The mail relay (decode_base64_attachment and send_email) -/

/-- SMTP transport configuration, validated by get_smtp_config and
injected here; port 465 selects implicit TLS. -/
structure SmtpConfig where
  server : String
  user : String
  password : String
  fromEmail : String
  port : Nat
  useTls : Bool
deriving DecidableEq

/-- Model of the smtp_use_ssl flag computed by get_smtp_config. -/
def smtp_use_ssl (c : SmtpConfig) : Bool := c.port == 465

/-- The ValueError message raised for an undecodable attachment; the
str(e) tail of the source message is modelled by fixed text. -/
def decode_error_message (filename : String) : String :=
  "Error al decodificar el adjunto " ++ filename ++ ": datos base64 inválidos"

/-- Model of decode_base64_attachment: decode the base64 content,
wrapping any failure in a ValueError naming the filename. -/
def decode_base64_attachment (a : Attachment) : Except String (List Nat) :=
  match b64decode a.content with
  | some bs => .ok bs
  | none => .error (decode_error_message a.filename)

/-- The attachment loop of send_email: each attachment is decoded in
order while the message is being built; the first failure propagates. -/
def decode_all_attachments : List Attachment → Except String Unit
  | [] => .ok ()
  | a :: rest =>
    match decode_base64_attachment a with
    | .error m => .error m
    | .ok _ => decode_all_attachments rest

/-- Behaviour of the external SMTP exchange once a connection is opened:
delivery, a rejected login (SMTPAuthenticationError), or another SMTP
protocol failure (SMTPException). -/
inductive SmtpOutcome where
  | delivered
  | authRejected
  | protocolError (msg : String)
deriving DecidableEq

/-- Result of send_email as observed by the endpoint: the success
dictionary, a raised ValueError, or a raised SMTP error. -/
inductive SendResultM where
  | ok (message : String) (recipients : List String)
  | valueError (msg : String)
  | smtpAuthError
  | smtpError (msg : String)
deriving DecidableEq

/-- Trace of one send_email call: its result, whether an SMTP network
connection was opened, and whether the implicit-TLS transport was
selected for it. -/
structure SendTrace where
  result : SendResultM
  connection_attempted : Bool
  used_ssl : Bool
deriving DecidableEq

/-- Model of send_email: the MIME message is assembled (decoding every
attachment, the only fallible step) strictly before the smtplib
connection block; only then is a connection opened, with implicit TLS
for port 465 and plain-plus-optional-STARTTLS otherwise, and the
outcome of the external exchange determines the result. -/
def send_email (cfg : SmtpConfig) (_subject _body : String)
    (recipients : List String) (attachments : Option (List Attachment))
    (_is_html : Bool) (outcome : SmtpOutcome) : SendTrace :=
  match decode_all_attachments (attachments.getD []) with
  | .error m => ⟨.valueError m, false, false⟩
  | .ok _ =>
    let ssl := smtp_use_ssl cfg
    match outcome with
    | .delivered =>
      ⟨.ok ("Correo enviado exitosamente a " ++
          toString recipients.length ++ " destinatario(s)") recipients,
        true, ssl⟩
    | .authRejected => ⟨.smtpAuthError, true, ssl⟩
    | .protocolError m => ⟨.smtpError m, true, ssl⟩

/-! ### The send-email endpoint (send_email_endpoint)

FastAPI dispatch for the route: the security dependency (verify_access,
which itself depends on verify_api_key) is solved before the request
body is validated against EmailRequest, because solve_dependencies
evaluates sub-dependencies before body parameters and an HTTPException
raised there propagates immediately.  This matches the control flow of
spec section 2 (gate first, then schema validation, then relay). -/

/-- Response produced by the route: the EmailResponse success payload
or an HTTP error with status and detail. -/
inductive HttpResponse where
  | emailOk (message : String) (recipients : List String)
  | error (status : Nat) (detail : String)
deriving DecidableEq

/-- Trace of one request through the route: the response, whether
send_email was invoked, and whether an SMTP connection was opened. -/
structure PipelineTrace where
  response : HttpResponse
  send_email_invoked : Bool
  connection_attempted : Bool
deriving DecidableEq

/-- Model of one request to the send-email route, composing the gate,
body validation and the relay, and mapping exceptions to responses as
the endpoint handler does (ValueError to 400, SMTP authentication
failure to 401, other SMTP failures to 502). -/
def handle_send_email (cfg : AppConfig) (smtp : SmtpConfig) (r : Request)
    (b : EmailReq) (outcome : SmtpOutcome) : PipelineTrace :=
  match verify_access cfg r with
  | .error e => ⟨.error (authStatus e) (authDetail e), false, false⟩
  | .ok _ =>
    if !validate_email_request b then
      ⟨.error 422 "validation error", false, false⟩
    else
      let t := send_email smtp b.subject b.body b.recipients b.attachments
        b.is_html outcome
      match t.result with
      | .ok m rs => ⟨.emailOk m rs, true, t.connection_attempted⟩
      | .valueError m => ⟨.error 400 m, true, t.connection_attempted⟩
      | .smtpAuthError =>
        ⟨.error 401 "Error de autenticación SMTP. Verifica las credenciales.",
          true, t.connection_attempted⟩
      | .smtpError m =>
        ⟨.error 502 ("Error al comunicarse con el servidor SMTP: " ++ m),
          true, t.connection_attempted⟩

/-! ### Definitions taken from the wording of the spec and of the claims

These definitions follow the natural-language statements (not the
source); the theorems below compare them with the source embedding. -/

/-- Modelled from the claim wording of C5: the resolved client IP is
the trimmed X-Real-IP value if that header is present, else the trimmed
first comma-separated element of X-Forwarded-For if present, else the
peer address, else the literal unknown.  Presence here is literal
header presence, with no truthiness qualification. -/
def resolve_claim (r : Request) : String :=
  match r.xRealIP with
  | some v => pyStrip v
  | none =>
    match r.xForwardedFor with
    | some v => pyStrip ((pySplit ',' v).headD "")
    | none =>
      match r.clientHost with
      | some h => h
      | none => "unknown"

/-- Modelled from the amended wording of C5: as resolve_claim, but a
header counts only when it is present with a non-empty value (Python
truthiness), matching the source conditionals. -/
def resolve_spec (r : Request) : String :=
  if pyTruthy r.xRealIP then pyStrip (r.xRealIP.getD "")
  else if pyTruthy r.xForwardedFor then
    pyStrip ((pySplit ',' (r.xForwardedFor.getD "")).headD "")
  else
    match r.clientHost with
    | some h => h
    | none => "unknown"

/-- Modelled from the claim wording of C6: an entry containing a slash
is a CIDR network and the candidate matches iff it parses as a valid IP
lying within it; otherwise the entry is a literal and the candidate
matches iff it is string-equal to the entry after the candidate values
::1 and localhost are normalized to 127.0.0.1.  Note that under this
wording the normalization touches only the literal branch. -/
def claimMatches (candidate entry : String) : Bool :=
  if strHasChar entry '/' then
    match ip_address candidate, ip_network entry with
    | some a, some net => memNetwork a net
    | _, _ => false
  else normalizeLocal candidate == entry

/-- Modelled from the amended wording of C6: the candidate is first
normalized (::1 and localhost become 127.0.0.1) and the result is used
by both branches, CIDR matching included. -/
def claimMatchesAmended (candidate entry : String) : Bool :=
  let c := normalizeLocal candidate
  if strHasChar entry '/' then
    match ip_address c, ip_network entry with
    | some a, some net => memNetwork a net
    | _, _ => false
  else c == entry

/-- An entry is malformed in the sense of C7 when its evaluation parses
it, which happens exactly for slash entries, and that parse fails. -/
def cidr_malformed (entry : String) : Bool :=
  strHasChar entry '/' && (ip_network entry).isNone

/-! ### Concrete fixtures used by witnesses and counterexamples -/

/-- A request on the send-email route carrying no headers, peered at
192.168.1.50. -/
def req192 : Request := ⟨"/send-email", none, none, none, some "192.168.1.50"⟩

/-- A request on the send-email route carrying no headers, peered at a
string with a 10. prefix that is not an IP address. -/
def req10 : Request := ⟨"/send-email", none, none, none, some "10.not.an.ip"⟩

/-- A request on the send-email route carrying no headers, peered at a
public address with no private-network prefix. -/
def req8 : Request := ⟨"/send-email", none, none, none, some "8.8.8.8"⟩

/-- A request to the documentation surface with no API key, peered at
localhost. -/
def reqDocs : Request := ⟨"/docs", none, none, none, some "127.0.0.1"⟩

/-- A send-email request with no API key header, peered at localhost. -/
def reqNoKey : Request := ⟨"/send-email", none, none, none, some "127.0.0.1"⟩

/-- A request whose X-Real-IP header is present but empty while
X-Forwarded-For carries 1.2.3.4. -/
def reqEmptyRealIp : Request :=
  ⟨"/send-email", none, some "", some "1.2.3.4", some "9.9.9.9"⟩

/-- An attachment whose base64 payload is corrupted. -/
def attBad : Attachment := ⟨"file.txt", "%%%not-base64%%%", none⟩

/-- A fixed SMTP configuration for witnesses. -/
def smtpW : SmtpConfig := ⟨"smtp.example.com", "u", "p", "from@example.com", 587, true⟩

/-- A schema-valid email body fixture. -/
def bodyOk : EmailReq := ⟨"hi", "hello", ["a@b.com"], none, false⟩

/-- An email body fixture with an empty recipients list. -/
def bodyEmptyRec : EmailReq := ⟨"hi", "hello", [], none, false⟩

/-- A send-email request presenting the wrong API key. -/
def reqWrongKey : Request :=
  ⟨"/send-email", some "wrong", none, none, some "127.0.0.1"⟩

/-! ### Helper lemmas shared by the claim theorems -/

/-- The body of verify_access, rewritten through get_client_ip; the
inline resolution steps of the source are literally those of
get_client_ip, so this is definitional. -/
theorem verify_access_eq (cfg : AppConfig) (r : Request) :
    verify_access cfg r =
      match verify_api_key cfg.apiKey r.xApiKey with
      | .error e => .error e
      | .ok api_key =>
        if cfg.allowedIps.contains "127.0.0.1" && docker_net_test (get_client_ip r) then
          .ok api_key
        else if !verify_ip_address cfg.allowedIps (get_client_ip r) then
          .error (.forbidden ("Acceso denegado. Tu IP (" ++ get_client_ip r ++
            ") no está en la lista de IPs permitidas."))
        else .ok api_key := rfl

/-- List containment as membership, for strings. -/
theorem mem_of_containsStr {l : List String} {a : String}
    (h : l.contains a = true) : a ∈ l := List.elem_iff.mp h

/-- A list with a member is not empty. -/
theorem isEmpty_false_of_mem {l : List String} {a : String} (h : a ∈ l) :
    l.isEmpty = false := by
  cases l with
  | nil => cases h
  | cons x t => rfl

/-- When 127.0.0.1 is on the allowlist, a local client string (loopback
in any spelling) passes verify_ip_address through the literal entry. -/
theorem verify_ip_address_local (l : List String) (c : String)
    (hm : l.contains "127.0.0.1" = true)
    (hl : (c == "127.0.0.1" || c == "::1" || c == "localhost") = true) :
    verify_ip_address l c = true := by
  have hmem : "127.0.0.1" ∈ l := mem_of_containsStr hm
  have hne : l.isEmpty = false := isEmpty_false_of_mem hmem
  have hnorm : normalizeLocal c = "127.0.0.1" := by
    simp only [Bool.or_eq_true, beq_iff_eq] at hl
    rcases hl with (h | h) | h
    · rw [h]; rfl
    · rw [h]; rfl
    · rw [h]; rfl
  unfold verify_ip_address
  rw [hne]
  simp only [Bool.false_eq_true, if_false]
  exact List.any_eq_true.mpr ⟨"127.0.0.1", hmem, by rw [hnorm]; decide⟩

/-! ### Claim theorems -/

/-- C1: for every request to the mail-send endpoint, send_email is
invoked only if the access gate (verify_access) granted the request,
and whenever the gate denies, send_email is not invoked and no SMTP
connection is attempted. -/
theorem c1_gate_guards_send (cfg : AppConfig) (smtp : SmtpConfig) (r : Request)
    (b : EmailReq) (o : SmtpOutcome) :
    ((handle_send_email cfg smtp r b o).send_email_invoked = true →
      gateOk (verify_access cfg r) = true) ∧
    (gateOk (verify_access cfg r) = false →
      (handle_send_email cfg smtp r b o).send_email_invoked = false ∧
      (handle_send_email cfg smtp r b o).connection_attempted = false) := by
  unfold handle_send_email gateOk
  cases h : verify_access cfg r with
  | error e => simp
  | ok k =>
    refine ⟨fun _ => rfl, fun hc => by cases hc⟩

/-- Witness for C1: a request denied by the gate (configured key,
none presented) invokes no send and opens no connection. -/
theorem c1_witness :
    (handle_send_email ⟨some "secret", []⟩ smtpW reqNoKey bodyOk
        SmtpOutcome.delivered).send_email_invoked = false ∧
    (handle_send_email ⟨some "secret", []⟩ smtpW reqNoKey bodyOk
        SmtpOutcome.delivered).connection_attempted = false :=
  (c1_gate_guards_send ⟨some "secret", []⟩ smtpW reqNoKey bodyOk
    SmtpOutcome.delivered).2 (by decide)

/-- C3: if 127.0.0.1 is on the allowlist and the resolved client string
begins with 172., 192.168. or 10., the gate grants the request (key
check already passed) even when no allowlist entry matches that IP; the
conclusion does not consult the general matcher. -/
theorem c3_private_network_exception (cfg : AppConfig) (r : Request) (k : String)
    (hk : verify_api_key cfg.apiKey r.xApiKey = .ok k)
    (hmem : cfg.allowedIps.contains "127.0.0.1" = true)
    (hpre : (strStarts (get_client_ip r) "172." ||
      strStarts (get_client_ip r) "192.168." ||
      strStarts (get_client_ip r) "10.") = true)
    (_hnomatch : verify_ip_address cfg.allowedIps (get_client_ip r) = false) :
    verify_access cfg r = .ok k := by
  rw [verify_access_eq, hk]
  have hd : docker_net_test (get_client_ip r) = true := hpre
  rw [hmem, hd]
  rfl

/-- Witness for C3: allowlist [127.0.0.1], peer 192.168.1.50, no key
configured; no entry matches 192.168.1.50, yet access is granted. -/
theorem c3_witness :
    verify_access ⟨none, ["127.0.0.1"]⟩ req192 = Except.ok "no-key-required" :=
  c3_private_network_exception ⟨none, ["127.0.0.1"]⟩ req192 "no-key-required"
    (by decide) (by decide) (by decide) (by decide)

/-- C4: with no configured credential every request passes the key
check; with a configured credential a missing (falsy) presented key and
a mismatched presented key are both rejected with a 401 Unauthenticated
error, and any key-check failure propagates out of verify_access
unchanged, so the IP check is never consulted. -/
theorem c4_api_key_verification (cfg : AppConfig) (r : Request) :
    (pyTruthy cfg.apiKey = false →
      verify_api_key cfg.apiKey r.xApiKey = .ok "no-key-required") ∧
    (pyTruthy cfg.apiKey = true → pyTruthy r.xApiKey = false →
      verify_api_key cfg.apiKey r.xApiKey = .error (.unauthenticated
        "API Key requerida. Proporciona la API Key en el header X-API-Key")) ∧
    (∀ s k : String, cfg.apiKey = some s → s ≠ "" → r.xApiKey = some k →
      k ≠ "" → k ≠ s →
      verify_api_key cfg.apiKey r.xApiKey =
        .error (.unauthenticated "API Key inválida")) ∧
    (∀ e, verify_api_key cfg.apiKey r.xApiKey = .error e →
      verify_access cfg r = .error e) ∧
    (∀ d, authStatus (.unauthenticated d) = 401) := by
  refine ⟨?_, ?_, ?_, ?_, fun d => rfl⟩
  · intro hf
    unfold verify_api_key
    rw [hf]
    rfl
  · intro ht hf
    unfold verify_api_key
    rw [ht, hf]
    rfl
  · intro s k hs hsne hk hkne hne
    unfold verify_api_key
    rw [hs, hk]
    have h1 : pyTruthy (some s) = true := by
      simp [pyTruthy, hsne]
    have h2 : pyTruthy (some k) = true := by
      simp [pyTruthy, hkne]
    rw [h1, h2]
    have h3 : ((some k : Option String) != some s) = true := by
      simp [bne]
      exact hne
    rw [h3]
    rfl
  · intro e he
    rw [verify_access_eq, he]

/-- Witness for C4: configured key secret, presented key wrong, the
gate fails 401 without consulting the IP check. -/
theorem c4_witness :
    verify_access ⟨some "secret", ["127.0.0.1"]⟩ reqWrongKey =
      Except.error (AuthError.unauthenticated "API Key inválida") := by
  have h := c4_api_key_verification ⟨some "secret", ["127.0.0.1"]⟩ reqWrongKey
  exact h.2.2.2.1 _ (h.2.2.1 "secret" "wrong" rfl (by decide) rfl (by decide)
    (by decide))

/-- C5 (amended): the resolved client IP is the trimmed X-Real-IP value
when that header is present with a non-empty value, else the trimmed
first comma-separated element of X-Forwarded-For when present with a
non-empty value, else the peer address, else the literal unknown. -/
theorem c5_resolution (r : Request) : get_client_ip r = resolve_spec r := by
  unfold get_client_ip resolve_spec
  by_cases h1 : pyTruthy r.xRealIP <;> by_cases h2 : pyTruthy r.xForwardedFor <;>
    simp [h1, h2]

/-- Counterexample for C5 as stated: an X-Real-IP header that is
present but empty is skipped by the source (Python truthiness), so the
X-Forwarded-For value wins, while the claim makes X-Real-IP win by mere
presence. -/
theorem c5_counterexample :
    get_client_ip reqEmptyRealIp = "1.2.3.4" ∧
    resolve_claim reqEmptyRealIp = "" ∧
    get_client_ip reqEmptyRealIp ≠ resolve_claim reqEmptyRealIp :=
  ⟨by decide, by decide, by decide⟩

/-- C6 (amended): verify_ip_address is open-mode on the empty allowlist
and otherwise matches some entry, where the per-entry semantics first
normalizes the candidate (::1 and localhost become 127.0.0.1) and then
applies CIDR matching for slash entries and string equality for literal
entries. -/
theorem c6_matcher (candidate : String) (l : List String) :
    verify_ip_address l candidate =
      (l.isEmpty || l.any (claimMatchesAmended candidate)) := by
  have he : claimMatchesAmended candidate = entry_match (normalizeLocal candidate) := by
    funext e
    rfl
  unfold verify_ip_address
  rw [he]
  by_cases hE : l.isEmpty <;> simp [hE]

/-- Counterexample for C6 as stated: under the claim wording the
normalization does not reach the CIDR branch, so candidate ::1 does not
match entry 127.0.0.0/8 (an IPv6 address is in no IPv4 network); the
source normalizes before the loop and accepts it. -/
theorem c6_counterexample :
    verify_ip_address ["127.0.0.0/8"] "::1" = true ∧
    List.any ["127.0.0.0/8"] (claimMatches "::1") = false :=
  ⟨by decide, by decide⟩

/-- C7: verify_ip_address returns true iff the allowlist is empty or
some entry matches the normalized candidate; an entry whose evaluation
fails to parse (a slash entry whose network parse fails) never matches,
and such an entry at the front never affects the verdict of the
remaining entries. -/
theorem c7_is_allowed (client_ip : String) (l : List String) :
    (verify_ip_address l client_ip = true ↔
      (l = [] ∨ ∃ e ∈ l, entry_match (normalizeLocal client_ip) e = true)) ∧
    (∀ e, cidr_malformed e = true →
      entry_match (normalizeLocal client_ip) e = false) ∧
    (∀ bad rest, cidr_malformed bad = true → rest ≠ [] →
      verify_ip_address (bad :: rest) client_ip =
        verify_ip_address rest client_ip) := by
  have hmal : ∀ e, cidr_malformed e = true →
      entry_match (normalizeLocal client_ip) e = false := by
    intro e he
    unfold cidr_malformed at he
    obtain ⟨hc, hn⟩ := Bool.and_eq_true_iff.mp he
    have hnn : ip_network e = none := Option.isNone_iff_eq_none.mp hn
    unfold entry_match
    rw [hc]
    cases ip_address (normalizeLocal client_ip) <;> simp [hnn]
  refine ⟨?_, hmal, ?_⟩
  · cases l with
    | nil => simp [verify_ip_address]
    | cons x t =>
      unfold verify_ip_address
      simp [List.any_eq_true]
  · intro bad rest hb hr
    have hbe := hmal bad hb
    unfold verify_ip_address
    cases rest with
    | nil => exact absurd rfl hr
    | cons y t => simp [hbe]

/-- Witness for C7: a malformed entry at the front is skipped and a
later CIDR entry still matches. -/
theorem c7_witness :
    verify_ip_address ["banana/24", "192.168.1.0/24"] "192.168.1.50" = true := by
  have h := c7_is_allowed "192.168.1.50" ["banana/24", "192.168.1.0/24"]
  rw [h.2.2 "banana/24" ["192.168.1.0/24"] (by decide) (by simp)]
  decide

/-- C2 (amended): on the documentation paths the middleware decision is
exactly the IP-allowlist half of the action-level gate: it grants iff
verify_access grants for the same request under a configuration with no
API key configured.  The middleware performs no API-key verification,
so with a configured credential the two gates can disagree. -/
theorem c2_docs_equals_ip_gate (allowed : List String) (r : Request)
    (h : is_docs_path r.path = true) :
    (docs_dispatch allowed r = DocsDecision.allow) ↔
      (verify_access ⟨none, allowed⟩ r = Except.ok "no-key-required") := by
  have hgate : verify_access ⟨none, allowed⟩ r =
      (if allowed.contains "127.0.0.1" && docker_net_test (get_client_ip r) then
        Except.ok "no-key-required"
      else if !verify_ip_address allowed (get_client_ip r) then
        Except.error (.forbidden ("Acceso denegado. Tu IP (" ++ get_client_ip r ++
          ") no está en la lista de IPs permitidas."))
      else Except.ok "no-key-required") := rfl
  rw [hgate]
  unfold docs_dispatch
  rw [h]
  by_cases hE : allowed.isEmpty = true
  · have hM : allowed.contains "127.0.0.1" = false := by
      cases allowed with
      | nil => rfl
      | cons a t => simp [List.isEmpty] at hE
    have hV : verify_ip_address allowed (get_client_ip r) = true := by
      unfold verify_ip_address
      rw [hE]
      rfl
    simp [hE, hM, hV]
  · have hE' : allowed.isEmpty = false := Bool.eq_false_iff.mpr hE
    by_cases hM : allowed.contains "127.0.0.1" = true
    · by_cases hL : ((get_client_ip r) == "127.0.0.1" || (get_client_ip r) == "::1" ||
          (get_client_ip r) == "localhost") = true
      · have hV := verify_ip_address_local allowed (get_client_ip r) hM hL
        by_cases hP : docker_net_test (get_client_ip r) = true <;>
          simp [hE', hM, hL, hV, hP]
      · have hL' := Bool.eq_false_iff.mpr hL
        by_cases hP : docker_net_test (get_client_ip r) = true
        · simp [hE', hM, hL', hP]
        · have hP' := Bool.eq_false_iff.mpr hP
          by_cases hV : verify_ip_address allowed (get_client_ip r) = true <;>
            simp_all
    · have hM' : allowed.contains "127.0.0.1" = false := Bool.eq_false_iff.mpr hM
      by_cases hV : verify_ip_address allowed (get_client_ip r) = true <;>
        simp_all

/-- Witness for C2 (amended) at a concrete configuration. -/
theorem c2_witness :
    docs_dispatch ["192.168.1.0/24"] reqDocs = DocsDecision.allow ↔
      verify_access ⟨none, ["192.168.1.0/24"]⟩ reqDocs =
        Except.ok "no-key-required" :=
  c2_docs_equals_ip_gate ["192.168.1.0/24"] reqDocs (by decide)

/-- Counterexample for C2 as stated: with a configured credential and a
request presenting no key, the documentation middleware grants while
the action-level gate denies with 401, so the two decisions are not
identical. -/
theorem c2_counterexample :
    docs_dispatch ["127.0.0.1"] reqDocs = DocsDecision.allow ∧
    verify_access ⟨some "secret", ["127.0.0.1"]⟩ reqDocs =
      Except.error (AuthError.unauthenticated
        "API Key requerida. Proporciona la API Key en el header X-API-Key") :=
  ⟨by decide, by decide⟩

/-- C8 (amended): a request whose recipients list is empty is rejected
by schema validation before the relay is invoked and before any SMTP
connection is opened; the schema check runs after the access gate
(dependencies are solved first), so a gate denial takes precedence, and
whenever the gate grants, the response is the 422 validation
rejection. -/
theorem c8_empty_recipients (cfg : AppConfig) (smtp : SmtpConfig) (r : Request)
    (b : EmailReq) (o : SmtpOutcome) (hrec : b.recipients = []) :
    (handle_send_email cfg smtp r b o).send_email_invoked = false ∧
    (handle_send_email cfg smtp r b o).connection_attempted = false ∧
    (∀ k, verify_access cfg r = .ok k →
      (handle_send_email cfg smtp r b o).response =
        .error 422 "validation error") := by
  have hv : validate_email_request b = false := by
    unfold validate_email_request
    rw [hrec]
    simp
  unfold handle_send_email
  cases hg : verify_access cfg r with
  | error e =>
    refine ⟨rfl, rfl, fun k hk => ?_⟩
    cases hk
  | ok k => simp [hv]

/-- Witness for C8 (amended): open configuration, empty recipients,
the response is the validation rejection and nothing is sent. -/
theorem c8_witness :
    (handle_send_email ⟨none, []⟩ smtpW reqNoKey bodyEmptyRec
        SmtpOutcome.delivered).response =
      HttpResponse.error 422 "validation error" := by
  have h := c8_empty_recipients ⟨none, []⟩ smtpW reqNoKey bodyEmptyRec
    SmtpOutcome.delivered rfl
  exact h.2.2 "no-key-required" (by decide)

/-- Counterexample for C8 as stated: the gate (a dependency) runs
before body validation, so a schema-invalid request with a missing API
key is answered by the gate with 401, not by schema validation. -/
theorem c8_counterexample :
    validate_email_request bodyEmptyRec = false ∧
    (handle_send_email ⟨some "secret", ["127.0.0.1"]⟩ smtpW reqNoKey bodyEmptyRec
        SmtpOutcome.delivered).response =
      HttpResponse.error 401
        "API Key requerida. Proporciona la API Key en el header X-API-Key" :=
  ⟨by decide, by decide⟩

/-- The first attachment whose content fails to decode determines the
error of the attachment loop. -/
theorem decode_all_first_error (atts : List Attachment)
    (h : ∃ a ∈ atts, b64decode a.content = none) :
    ∃ a, a ∈ atts ∧ b64decode a.content = none ∧
      decode_all_attachments atts =
        .error (decode_error_message a.filename) := by
  induction atts with
  | nil =>
    obtain ⟨a, ha, _⟩ := h
    cases ha
  | cons x rest ih =>
    cases hx : b64decode x.content with
    | none =>
      refine ⟨x, List.mem_cons_self x rest, hx, ?_⟩
      unfold decode_all_attachments decode_base64_attachment
      rw [hx]
    | some bs =>
      obtain ⟨a, ha, han⟩ := h
      rcases List.mem_cons.mp ha with rfl | hmem
      · rw [hx] at han
        cases han
      · obtain ⟨a2, h1, h2, h3⟩ := ih ⟨a, hmem, han⟩
        refine ⟨a2, List.mem_cons_of_mem _ h1, h2, ?_⟩
        unfold decode_all_attachments decode_base64_attachment
        rw [hx]
        exact h3

/-- C9: a message containing an attachment with malformed base64
content makes send_email fail with the ValueError naming the offending
filename, and no SMTP connection is attempted. -/
theorem c9_malformed_attachment (smtp : SmtpConfig) (subject body : String)
    (recips : List String) (atts : List Attachment) (is_html : Bool)
    (o : SmtpOutcome) (h : ∃ a ∈ atts, b64decode a.content = none) :
    ∃ a, a ∈ atts ∧ b64decode a.content = none ∧
      (send_email smtp subject body recips (some atts) is_html o).result =
        SendResultM.valueError (decode_error_message a.filename) ∧
      (send_email smtp subject body recips (some atts) is_html o).connection_attempted
        = false := by
  obtain ⟨a, h1, h2, h3⟩ := decode_all_first_error atts h
  refine ⟨a, h1, h2, ?_, ?_⟩ <;>
    · unfold send_email
      rw [show (some atts).getD ([] : List Attachment) = atts from rfl, h3]

/-- Witness for C9: the corrupted payload of attBad produces the
ValueError naming file.txt, with no connection attempted. -/
theorem c9_witness :
    (send_email smtpW "s" "b" ["a@b.com"] (some [attBad]) false
        SmtpOutcome.delivered).result =
      SendResultM.valueError (decode_error_message "file.txt") ∧
    (send_email smtpW "s" "b" ["a@b.com"] (some [attBad]) false
        SmtpOutcome.delivered).connection_attempted = false := by
  obtain ⟨a, ha, h2, h3, h4⟩ := c9_malformed_attachment smtpW "s" "b" ["a@b.com"]
    [attBad] false SmtpOutcome.delivered ⟨attBad, by simp, by decide⟩
  have hae : a = attBad := by simpa using ha
  subst hae
  exact ⟨h3, h4⟩

/-- C10: the private-network exception of verify_access fires exactly
on the literal allowlist entry 127.0.0.1 together with a plain string
prefix test on the resolved client (no IP validation).  Both directions
of the exactly: under those two conditions the gate grants outright,
and in every other configuration of the two conditions (prefix test
false, or literal entry absent) the gate decision is exactly the
matcher verdict, so the exception contributes nothing there. -/
theorem c10_exception_scope (cfg : AppConfig) (r : Request) (k : String)
    (hk : verify_api_key cfg.apiKey r.xApiKey = .ok k) :
    (cfg.allowedIps.contains "127.0.0.1" = true →
      docker_net_test (get_client_ip r) = true →
      verify_access cfg r = .ok k) ∧
    (docker_net_test (get_client_ip r) = false →
      (verify_access cfg r = .ok k ↔
        verify_ip_address cfg.allowedIps (get_client_ip r) = true)) ∧
    (cfg.allowedIps.contains "127.0.0.1" = false →
      (verify_access cfg r = .ok k ↔
        verify_ip_address cfg.allowedIps (get_client_ip r) = true)) := by
  refine ⟨?_, ?_, ?_⟩
  · intro hm hp
    rw [verify_access_eq, hk, hm, hp]
    rfl
  · intro hp
    rw [verify_access_eq, hk, hp]
    by_cases hv : verify_ip_address cfg.allowedIps (get_client_ip r) = true <;>
      simp [hv]
  · intro hm
    rw [verify_access_eq, hk, hm]
    by_cases hv : verify_ip_address cfg.allowedIps (get_client_ip r) = true <;>
      simp [hv]

/-- Witness for C10: with allowlist [127.0.0.1] the exception grants a
client string that is not even an IP address (plain prefix test), while
a client without a private prefix, 8.8.8.8, is not granted: the gate
falls through to the matcher there, so the exception really requires
the prefix. -/
theorem c10_witness :
    verify_access ⟨none, ["127.0.0.1"]⟩ req10 = Except.ok "no-key-required" ∧
    ¬ (verify_access ⟨none, ["127.0.0.1"]⟩ req8 = Except.ok "no-key-required") := by
  constructor
  · exact (c10_exception_scope ⟨none, ["127.0.0.1"]⟩ req10 "no-key-required"
      (by decide)).1 (by decide) (by decide)
  · intro hok
    have h := (c10_exception_scope ⟨none, ["127.0.0.1"]⟩ req8 "no-key-required"
      (by decide)).2.1 (by decide)
    exact absurd (h.mp hok) (by decide)

end MailSys
